import Mathlib

/-!
Shallow embedding of the QR-code SaaS backend's scan-ingestion, analytics and
QR-lifecycle core (app/models and app/routes), together with proofs of the
behavioural properties stated in the design spec.

Modelling conventions:
* `datetime` values are UTC timestamps measured in whole seconds (`Int`);
  `datetime.utcnow()` is passed in as a `now` parameter.
* The relational tables are Lean lists carried in a `DB` record; the ORM's
  `query(...).filter(...).first()` is `List.find?`, `count()` is
  `(List.filter _).length`.
* The external `user_agents.parse` library call is an uninterpreted parameter
  `parse : String → UserAgent` producing the flags and families the code reads.
* Random draws of `secrets.token_urlsafe(6)` are supplied by a stream
  `gen : Nat → String`; row ids assigned by the database are passed in.
* HTTP responses are `Except HTTPException _` (FastAPI `raise HTTPException`)
  or a bespoke result type for the public scan endpoint.
-/

namespace QrSaas

/-- Subscription plan types (app/models/user.py, `SubscriptionPlan`). -/
inductive SubscriptionPlan
  | free
  | pro
  | business
  deriving DecidableEq, Repr

/-- The enum's string value, as serialised in responses. -/
def SubscriptionPlan.value : SubscriptionPlan → String
  | .free => "free"
  | .pro => "pro"
  | .business => "business"

/-- User model (app/models/user.py), restricted to the fields the
scan/analytics/QR routes consult. -/
structure User where
  id : Nat
  email : String
  subscription_plan : SubscriptionPlan
  deriving DecidableEq, Repr

/-- `User.is_premium` (app/models/user.py lines 57-60). -/
def User.is_premium (u : User) : Bool :=
  u.subscription_plan == .pro || u.subscription_plan == .business

/-- `User.qr_code_limit` (app/models/user.py lines 62-67): `none` models
Python `None` (unlimited for premium plans). -/
def User.qr_code_limit (u : User) : Option Nat :=
  if u.subscription_plan == .free then some 3 else none

/-- Rate-limit settings from app/config.py. -/
def RATE_LIMIT_FREE : Nat := 100

def RATE_LIMIT_PRO : Nat := 10000

def RATE_LIMIT_BUSINESS : Nat := 100000

/-- `User.scan_limit` (app/models/user.py lines 69-78). -/
def User.scan_limit (u : User) : Nat :=
  match u.subscription_plan with
  | .free => RATE_LIMIT_FREE
  | .pro => RATE_LIMIT_PRO
  | .business => RATE_LIMIT_BUSINESS

/-- QR code row (app/models/qrcode.py). `custom_metadata` is omitted (never
read by any route). -/
structure QRCode where
  id : Nat
  user_id : Option Nat
  title : String
  destination_url : String
  short_code : String
  is_dynamic : Bool
  foreground_color : String
  background_color : String
  logo_path : Option String
  style : String
  error_correction : String
  is_active : Bool
  expires_at : Option Int
  file_path_png : Option String
  file_path_svg : Option String
  file_path_pdf : Option String
  total_scans : Nat
  last_scanned_at : Option Int
  deriving DecidableEq, Repr

/-- `QRCode.is_expired` (app/models/qrcode.py lines 63-68):
expired iff an expiry is set and `utcnow() > expires_at`. -/
def QRCode.is_expired (q : QRCode) (now : Int) : Bool :=
  match q.expires_at with
  | none => false
  | some e => now > e

/-- `QRCode.can_scan` (app/models/qrcode.py lines 70-73). -/
def QRCode.can_scan (q : QRCode) (now : Int) : Bool :=
  q.is_active && !(q.is_expired now)

/-- Scan event row (app/models/analytics.py, `QRScan`). -/
structure QRScan where
  id : Nat
  qr_code_id : Nat
  scanned_at : Int
  ip_address : Option String
  country : Option String
  city : Option String
  user_agent : Option String
  device_type : Option String
  os : Option String
  browser : Option String
  referrer : Option String
  deriving DecidableEq, Repr

/-- Persistent state touched by the modelled routes: the two tables plus the
set of artifact files the render service has written to disk. -/
structure DB where
  qr_codes : List QRCode
  scans : List QRScan
  artifacts : List String
  deriving DecidableEq, Repr

/-- Result of the external `user_agents.parse`: exactly the flags and family
strings the scan handler reads (an empty family models a missing one). -/
structure UserAgent where
  is_mobile : Bool
  is_tablet : Bool
  is_pc : Bool
  os_family : String
  browser_family : String
  deriving DecidableEq, Repr

/-- Inbound request context of the public scan endpoint: the headers and
transport-layer peer address the handler reads. -/
structure RequestCtx where
  user_agent : String
  x_forwarded_for : Option String
  client_host : String
  referer : Option String
  deriving DecidableEq, Repr

/-- FastAPI `HTTPException(status_code, detail)`. -/
structure HTTPException where
  status_code : Nat
  detail : String
  deriving DecidableEq, Repr

/-- Outcome of the public scan endpoint: `Response(404)`, `Response(403)` or
`RedirectResponse(url, 302)` (app/routes/public.py). -/
inductive ScanResult
  | notFound
  | forbidden
  | redirect (url : String)
  deriving DecidableEq, Repr

/-- Device classification (app/routes/public.py lines 48-56): mobile checked
first, then tablet, then pc, else "other". -/
def deviceType (ua : UserAgent) : String :=
  if ua.is_mobile then "mobile"
  else if ua.is_tablet then "tablet"
  else if ua.is_pc then "desktop"
  else "other"

/-- Client IP derivation (app/routes/public.py lines 43-46): the first entry
of `x-forwarded-for`, stripped, when the header is present; the peer address
otherwise. -/
def clientIp (req : RequestCtx) : String :=
  match req.x_forwarded_for with
  | some xff => ((xff.splitOn ",").headD "").trim
  | none => req.client_host

/-- The scan row the public handler constructs (app/routes/public.py lines
58-67): derived analytics fields plus the referrer, referencing the resolved
QR code. -/
def scanRow (parse : String → UserAgent) (now : Int) (scanId : Nat)
    (req : RequestCtx) (qr : QRCode) : QRScan :=
  let ua := parse req.user_agent
  { id := scanId
    qr_code_id := qr.id
    scanned_at := now
    ip_address := some (clientIp req)
    country := none
    city := none
    user_agent := some req.user_agent
    device_type := some (deviceType ua)
    os := if ua.os_family == "" then none else some ua.os_family
    browser := if ua.browser_family == "" then none else some ua.browser_family
    referrer := req.referer }

/-- The counter and timestamp update applied to the scanned row
(app/routes/public.py lines 71-73). -/
def bumpScan (now : Int) (q : QRCode) : QRCode :=
  { q with total_scans := q.total_scans + 1, last_scanned_at := some now }

/-- Public scan handler `GET /s/\x7bshort_code\x7d`
(app/routes/public.py, `scan_qr_code`). `scanId` is the row id the database
assigns to the inserted scan. Returns the HTTP outcome and the new state; the
two writes (scan insert, counter/timestamp update) happen in one
`db.commit()`, which the single state transition models. -/
def scan_qr_code (parse : String → UserAgent) (now : Int) (scanId : Nat)
    (short_code : String) (req : RequestCtx) (db : DB) : ScanResult × DB :=
  match db.qr_codes.find? (fun q => q.short_code == short_code) with
  | none => (.notFound, db)
  | some qr =>
    if !(qr.can_scan now) then (.forbidden, db)
    else
      let db' : DB :=
        { db with
          scans := db.scans ++ [scanRow parse now scanId req qr]
          qr_codes := db.qr_codes.map (fun q =>
            if q.id == qr.id then bumpScan now q else q) }
      (.redirect qr.destination_url, db')

/-- Number of scan rows referencing QR code `qrId` (`COUNT(*)` on scans). -/
def scansFor (scans : List QRScan) (qrId : Nat) : Nat :=
  (scans.filter (fun s => s.qr_code_id == qrId)).length

/-- The denormalised-counter consistency invariant: every QR code's
`total_scans` equals the number of scan rows referencing it. -/
def counterInvariant (db : DB) : Prop :=
  ∀ q ∈ db.qr_codes, q.total_scans = scansFor db.scans q.id

/-- One day in seconds; on whole-second UTC timestamps,
`now.replace(hour=0, minute=0, second=0, microsecond=0)` is
`now - now % 86400`. -/
def secondsPerDay : Int := 86400

/-- Per-QR analytics summary (app/routes/analytics.py, `QRAnalytics`).
The presentation-only lists (`top_countries`, `top_devices`, `recent_scans`)
are read-only projections of the same scan table and are omitted. -/
structure QRAnalytics where
  qr_code_id : Nat
  total_scans : Nat
  scans_today : Nat
  scans_this_week : Nat
  scans_this_month : Nat
  deriving DecidableEq, Repr

/-- Count of scans of `qr_id` with `scanned_at >= bound`. -/
def countScansSince (scans : List QRScan) (qr_id : Nat) (bound : Int) : Nat :=
  (scans.filter (fun s => s.qr_code_id == qr_id && decide (bound ≤ s.scanned_at))).length

/-- `GET /analytics/\x7bqr_id\x7d` (app/routes/analytics.py,
`get_qr_analytics`): ownership check (404), then premium check (403), then the
window counts, all against the same `now`. -/
def get_qr_analytics (now : Int) (current_user : User) (qr_id : Nat) (db : DB) :
    Except HTTPException QRAnalytics :=
  match db.qr_codes.find? (fun q => q.id == qr_id && q.user_id == some current_user.id) with
  | none => .error ⟨404, "QR code not found"⟩
  | some _ =>
    if !current_user.is_premium then
      .error ⟨403, "Analytics require PRO subscription"⟩
    else
      let today := now - now % secondsPerDay
      let week_ago := now - 7 * secondsPerDay
      let month_ago := now - 30 * secondsPerDay
      .ok
        { qr_code_id := qr_id
          total_scans := scansFor db.scans qr_id
          scans_today := countScansSince db.scans qr_id today
          scans_this_week := countScansSince db.scans qr_id week_ago
          scans_this_month := countScansSince db.scans qr_id month_ago }

/-- Creation request schema (app/routes/qr.py, `QRCodeCreate`); the
`destination_url` has passed `HttpUrl` validation. -/
structure QRCodeCreate where
  title : String
  destination_url : String
  is_dynamic : Bool
  foreground_color : String
  background_color : String
  style : String
  logo_path : Option String
  deriving DecidableEq, Repr

/-- Whether some row already holds this short code. -/
def shortCodeTaken (db : DB) (c : String) : Bool :=
  (db.qr_codes.find? (fun q => q.short_code == c)).isSome

/-- The generate-and-retry loop of `create_qr_code` (app/routes/qr.py lines
78-81), drawing candidates `gen i, gen (i+1), ...` and keeping the first one
not already taken; `none` models the loop not terminating within `fuel`
draws. -/
def genUniqueShortCode (gen : Nat → String) (db : DB) : Nat → Nat → Option String
  | _, 0 => none
  | i, fuel + 1 =>
    if shortCodeTaken db (gen i) then genUniqueShortCode gen db (i + 1) fuel
    else some (gen i)

/-- Artifact files written by `qr_generator.save_files`
(app/services/qr_generator.py lines 151-177), named by short code; the svg is
written only when the vector rendering succeeded. The storage directory
prefix is elided. -/
def save_files (short_code : String) (svg_ok : Bool) : List String :=
  if svg_ok then [short_code ++ ".png", short_code ++ ".svg", short_code ++ ".pdf"]
  else [short_code ++ ".png", short_code ++ ".pdf"]

/-- `POST /qr/create` (app/routes/qr.py, `create_qr_code`). The quota check
runs first; only then is a unique short code drawn, the render service invoked
and its artifacts written, and the row inserted. `newId` is the row id the
database assigns; `svg_ok` tells whether vector rendering succeeded; the outer
`none` models the collision-retry loop exhausting `fuel`. -/
def create_qr_code (gen : Nat → String) (fuel : Nat) (newId : Nat) (svg_ok : Bool)
    (qr_data : QRCodeCreate) (current_user : User) (db : DB) :
    Option (Except HTTPException QRCode × DB) :=
  let qr_count := (db.qr_codes.filter (fun q => q.user_id == some current_user.id)).length
  let lim := (current_user.qr_code_limit).getD 0
  if !current_user.is_premium && (current_user.qr_code_limit).any (fun l => qr_count ≥ l) then
    some (.error ⟨403,
      s!"Free plan limited to {lim} QR codes. Upgrade to PRO for unlimited."⟩, db)
  else
    match genUniqueShortCode gen db 0 fuel with
    | none => none
    | some short_code =>
      let new_qr : QRCode :=
        { id := newId
          user_id := some current_user.id
          title := qr_data.title
          destination_url := qr_data.destination_url
          short_code := short_code
          is_dynamic := qr_data.is_dynamic
          foreground_color := qr_data.foreground_color
          background_color := qr_data.background_color
          logo_path := qr_data.logo_path
          style := qr_data.style
          error_correction := "M"
          is_active := true
          expires_at := none
          file_path_png := some (short_code ++ ".png")
          file_path_svg := if svg_ok then some (short_code ++ ".svg") else none
          file_path_pdf := some (short_code ++ ".pdf")
          total_scans := 0
          last_scanned_at := none }
      some (.ok new_qr,
        { db with
          qr_codes := db.qr_codes ++ [new_qr]
          artifacts := db.artifacts ++ save_files short_code svg_ok })

/-- Update request schema (app/routes/qr.py, `QRCodeUpdate`); `none` models a
field absent from the request (`exclude_unset`). -/
structure QRCodeUpdate where
  title : Option String
  destination_url : Option String
  foreground_color : Option String
  background_color : Option String
  is_active : Option Bool
  deriving DecidableEq, Repr

/-- The `setattr` loop of `update_qr_code`: each field present in the request
overwrites the row's field. -/
def applyUpdate (upd : QRCodeUpdate) (q : QRCode) : QRCode :=
  { q with
    title := upd.title.getD q.title
    destination_url := upd.destination_url.getD q.destination_url
    foreground_color := upd.foreground_color.getD q.foreground_color
    background_color := upd.background_color.getD q.background_color
    is_active := upd.is_active.getD q.is_active }

/-- `PUT /qr/\x7bqr_id\x7d` (app/routes/qr.py, `update_qr_code`): ownership
check (404), then the dynamic-URL gate (403), then the field updates. -/
def update_qr_code (qr_id : Nat) (qr_update : QRCodeUpdate) (current_user : User)
    (db : DB) : Except HTTPException QRCode × DB :=
  match db.qr_codes.find? (fun q => q.id == qr_id && q.user_id == some current_user.id) with
  | none => (.error ⟨404, "QR code not found"⟩, db)
  | some qr =>
    if qr_update.destination_url.isSome && !qr.is_dynamic then
      (.error ⟨403, "Cannot change URL of static QR code. Upgrade to dynamic QR."⟩, db)
    else
      (.ok (applyUpdate qr_update qr),
        { db with
          qr_codes := db.qr_codes.map (fun q =>
            if q.id == qr.id then applyUpdate qr_update q else q) })

/-- The `most_scanned` row of the dashboard summary. -/
structure MostScanned where
  id : Nat
  title : String
  scans : Nat
  deriving DecidableEq, Repr

/-- The join+group+order-desc+first query of `get_dashboard_summary`: per
owned QR code with at least one scan (inner join), its scan count; the first
row of maximal count (ties keep the earlier row). -/
def mostScanned (db : DB) (qr_ids : List Nat) : Option MostScanned :=
  let rows := (db.qr_codes.filter (fun q => qr_ids.contains q.id)).filterMap
    (fun q =>
      let c := scansFor db.scans q.id
      if c > 0 then some (⟨q.id, q.title, c⟩ : MostScanned) else none)
  rows.foldl (fun best row =>
    match best with
    | none => some row
    | some b => if row.scans > b.scans then some row else best) none

/-- Dashboard summary payload (app/routes/analytics.py,
`get_dashboard_summary`). -/
structure DashboardSummary where
  total_qr_codes : Nat
  total_scans : Nat
  scans_this_month : Nat
  scan_limit : Nat
  most_scanned_qr : Option MostScanned
  subscription_plan : String
  deriving DecidableEq, Repr

/-- `GET /analytics/dashboard/summary` (app/routes/analytics.py,
`get_dashboard_summary`): aggregates over all of the caller's QR codes, with
no plan gate anywhere on the path. -/
def get_dashboard_summary (now : Int) (current_user : User) (db : DB) :
    Except HTTPException DashboardSummary :=
  let qr_codes := db.qr_codes.filter (fun q => q.user_id == some current_user.id)
  let qr_ids := qr_codes.map (fun q => q.id)
  let month_ago := now - 30 * secondsPerDay
  .ok
    { total_qr_codes := qr_codes.length
      total_scans :=
        if qr_ids.isEmpty then 0
        else (db.scans.filter (fun s => qr_ids.contains s.qr_code_id)).length
      scans_this_month :=
        if qr_ids.isEmpty then 0
        else (db.scans.filter (fun s =>
          qr_ids.contains s.qr_code_id && decide (month_ago ≤ s.scanned_at))).length
      scan_limit := current_user.scan_limit
      most_scanned_qr := if qr_ids.isEmpty then none else mostScanned db qr_ids
      subscription_plan := current_user.subscription_plan.value }

/-- Session-level state of two concurrent executions of `scan_qr_code` against
the same QR-code row. The ORM loads the row (reading `total_scans` into the
session) at the handler's initial SELECT; `qr_code.total_scans += 1` computes
on that loaded value; `db.commit()` then atomically applies the scan-row
INSERT together with an UPDATE writing the computed value back. `loaded1`,
`loaded2` hold what each handler's SELECT read; `total_scans` and `scan_rows`
are the shared row's counter column and the number of scan rows referencing
it. -/
structure RaceState where
  total_scans : Nat
  scan_rows : Nat
  loaded1 : Option Nat
  loaded2 : Option Nat
  committed1 : Bool
  committed2 : Bool
  deriving DecidableEq, Repr

/-- The observable persistence-layer steps of each of the two handlers:
its row SELECT and its commit. -/
inductive RaceAction
  | load1
  | load2
  | commit1
  | commit2
  deriving DecidableEq, Repr

/-- One interleaving step. A handler loads at most once and can commit only
after its load; the commit applies the INSERT and the
`total_scans := loaded + 1` UPDATE atomically, exactly as `scan_qr_code`
updates the row it loaded. -/
def raceStep (s : RaceState) (a : RaceAction) : RaceState :=
  match a with
  | .load1 =>
    match s.loaded1 with
    | none => { s with loaded1 := some s.total_scans }
    | some _ => s
  | .load2 =>
    match s.loaded2 with
    | none => { s with loaded2 := some s.total_scans }
    | some _ => s
  | .commit1 =>
    match s.loaded1, s.committed1 with
    | some v, false =>
      { s with scan_rows := s.scan_rows + 1, total_scans := v + 1, committed1 := true }
    | _, _ => s
  | .commit2 =>
    match s.loaded2, s.committed2 with
    | some v, false =>
      { s with scan_rows := s.scan_rows + 1, total_scans := v + 1, committed2 := true }
    | _, _ => s

/-- Run a schedule of interleaved steps. -/
def raceRun (s : RaceState) (sched : List RaceAction) : RaceState :=
  sched.foldl raceStep s

/-- Initial state: counter and scan-row count agree (both zero), neither
handler has loaded or committed. -/
def raceInit : RaceState :=
  { total_scans := 0, scan_rows := 0, loaded1 := none, loaded2 := none,
    committed1 := false, committed2 := false }

/-- Both concurrent scan requests have completed. -/
def bothCommitted (s : RaceState) : Bool :=
  s.committed1 && s.committed2

/-!
Concrete sample data: a stubbed user-agent parser, two users, some QR codes
and scan rows, used to instantiate the theorems below on closed inputs.
-/

def parseW : String → UserAgent := fun s =>
  if s == "android-phone" then ⟨true, false, false, "Android", "Chrome"⟩
  else if s == "ipad" then ⟨false, true, false, "iOS", "Safari"⟩
  else if s == "windows" then ⟨false, false, true, "Windows", "Edge"⟩
  else ⟨false, false, false, "", ""⟩

def reqW : RequestCtx := ⟨"android-phone", none, "10.0.0.1", none⟩

def qrOn : QRCode :=
  { id := 1, user_id := some 1, title := "site", destination_url := "https://example.com",
    short_code := "abc123", is_dynamic := true, foreground_color := "#000000",
    background_color := "#FFFFFF", logo_path := none, style := "rounded",
    error_correction := "M", is_active := true, expires_at := none,
    file_path_png := some "abc123.png", file_path_svg := some "abc123.svg",
    file_path_pdf := some "abc123.pdf", total_scans := 0, last_scanned_at := none }

def qrOff : QRCode :=
  { qrOn with id := 2, short_code := "off001", is_active := false }

def qrPro : QRCode :=
  { qrOn with id := 3, short_code := "pro001", user_id := some 2 }

def qrStatic : QRCode :=
  { qrOn with id := 4, short_code := "sta001", is_dynamic := false }

def userFreeW : User := ⟨1, "free@example.com", .free⟩

def userProW : User := ⟨2, "pro@example.com", .pro⟩

def dbW : DB := ⟨[qrOn, qrOff, qrStatic], [], []⟩

def scanW1 : QRScan :=
  ⟨1, 3, 0, some "10.0.0.1", none, none, some "android-phone", some "mobile",
    some "Android", some "Chrome", none⟩

def scanW2 : QRScan :=
  ⟨2, 3, -100, some "10.0.0.2", none, none, some "windows", some "desktop",
    some "Windows", some "Edge", none⟩

def dbAW : DB := ⟨[qrPro], [scanW1, scanW2], []⟩

def qrF1 : QRCode := { qrOn with id := 11, short_code := "fff001" }

def qrF2 : QRCode := { qrOn with id := 12, short_code := "fff002" }

def qrF3 : QRCode := { qrOn with id := 13, short_code := "fff003" }

def dbQuota : DB := ⟨[qrF1, qrF2, qrF3], [], []⟩

def createReqW : QRCodeCreate :=
  ⟨"promo", "https://example.org", false, "#000000", "#FFFFFF", "square", none⟩

def genW : Nat → String := fun i => if i == 0 then "abc123" else "xyz789"

def updW : QRCodeUpdate := ⟨none, some "https://new.example.com", none, none, none⟩

/-!
Helper lemmas about list counting.
-/

theorem length_filter_mono {α : Type} {p q : α → Bool} (l : List α)
    (h : ∀ a, p a = true → q a = true) :
    (l.filter p).length ≤ (l.filter q).length := by
  induction l with
  | nil => simp
  | cons a l ih =>
    cases hp : p a with
    | true =>
      have hq := h a hp
      simp only [List.filter_cons, hp, hq, if_true, List.length_cons]
      exact Nat.succ_le_succ ih
    | false =>
      cases hq : q a with
      | true =>
        simp only [List.filter_cons, hp, hq, Bool.false_eq_true, if_false, if_true,
          List.length_cons]
        exact Nat.le_succ_of_le ih
      | false =>
        simp only [List.filter_cons, hp, hq, Bool.false_eq_true, if_false]
        exact ih

theorem scansFor_append (scans : List QRScan) (scan : QRScan) (i : Nat) :
    scansFor (scans ++ [scan]) i =
      scansFor scans i + (if scan.qr_code_id == i then 1 else 0) := by
  unfold scansFor
  rw [List.filter_append, List.length_append]
  congr 1
  cases h : (scan.qr_code_id == i) <;> simp [h]

theorem countScansSince_mono (scans : List QRScan) (qr_id : Nat) (b1 b2 : Int)
    (h : b2 ≤ b1) : countScansSince scans qr_id b1 ≤ countScansSince scans qr_id b2 := by
  unfold countScansSince
  apply length_filter_mono
  intro s hs
  simp only [Bool.and_eq_true, decide_eq_true_eq] at hs ⊢
  exact ⟨hs.1, le_trans h hs.2⟩

theorem countScansSince_le_scansFor (scans : List QRScan) (qr_id : Nat) (b : Int) :
    countScansSince scans qr_id b ≤ scansFor scans qr_id := by
  unfold countScansSince scansFor
  apply length_filter_mono
  intro s hs
  simp only [Bool.and_eq_true] at hs
  exact hs.1

/-!
Claim theorems.
-/

/-- C5: device classification is a total function from arbitrary user-agent
strings into exactly one of the four categories mobile, tablet, desktop,
other — mobile checked first, then tablet, then desktop, with other as the
fallback — so the categories are mutually exclusive and exhaustive. -/
theorem device_classification_total (parse : String → UserAgent) (s : String) :
    (["mobile", "tablet", "desktop", "other"].count (deviceType (parse s)) = 1)
    ∧ ((parse s).is_mobile = true → deviceType (parse s) = "mobile")
    ∧ ((parse s).is_mobile = false → (parse s).is_tablet = true →
        deviceType (parse s) = "tablet")
    ∧ ((parse s).is_mobile = false → (parse s).is_tablet = false →
        (parse s).is_pc = true → deviceType (parse s) = "desktop")
    ∧ ((parse s).is_mobile = false → (parse s).is_tablet = false →
        (parse s).is_pc = false → deviceType (parse s) = "other") := by
  cases hm : (parse s).is_mobile <;> cases ht : (parse s).is_tablet <;>
    cases hp : (parse s).is_pc <;>
      simp only [deviceType, hm, ht, hp] <;> decide

/-- C5 witness: a concrete tablet user agent is classified as "tablet". -/
theorem device_classification_total_witness :
    deviceType (UserAgent.mk false true false "iOS" "Safari") = "tablet" :=
  (device_classification_total
    (fun _ => UserAgent.mk false true false "iOS" "Safari") "ua").2.2.1 rfl rfl

/-- C7 (code bug): under two concurrent scans of the same QR code, the
interleaving in which both handlers load the row before either commits loses
an increment — both requests complete, two scan rows exist, yet the counter
column reads 1 — because `scan_qr_code` increments the value its session
loaded (an application-level read-modify-write) instead of issuing a
persistence-layer atomic increment. A sequential interleaving keeps the
counter equal to the scan-row count. -/
theorem scan_counter_lost_update :
    (bothCommitted (raceRun raceInit [.load1, .load2, .commit1, .commit2]) = true
      ∧ (raceRun raceInit [.load1, .load2, .commit1, .commit2]).scan_rows = 2
      ∧ (raceRun raceInit [.load1, .load2, .commit1, .commit2]).total_scans = 1)
    ∧ (bothCommitted (raceRun raceInit [.load1, .commit1, .load2, .commit2]) = true
      ∧ (raceRun raceInit [.load1, .commit1, .load2, .commit2]).scan_rows = 2
      ∧ (raceRun raceInit [.load1, .commit1, .load2, .commit2]).total_scans = 2) := by
  decide

/-- C2: the public scan endpoint returns 404 with no state change when the
short code resolves to no QR code; 403 with no state change when the QR code
is inactive or past its expiry; otherwise a 302 redirect to the QR code's
destination URL. The last conjunct characterises ineligibility as exactly
inactivity or a strictly-past expiry timestamp. -/
theorem scan_qr_code_status_cases (parse : String → UserAgent) (now : Int)
    (scanId : Nat) (sc : String) (req : RequestCtx) (db : DB) :
    (db.qr_codes.find? (fun q => q.short_code == sc) = none →
      scan_qr_code parse now scanId sc req db = (.notFound, db))
    ∧ (∀ qr, db.qr_codes.find? (fun q => q.short_code == sc) = some qr →
        qr.can_scan now = false →
        scan_qr_code parse now scanId sc req db = (.forbidden, db))
    ∧ (∀ qr, db.qr_codes.find? (fun q => q.short_code == sc) = some qr →
        qr.can_scan now = true →
        (scan_qr_code parse now scanId sc req db).1 = .redirect qr.destination_url)
    ∧ (∀ qr : QRCode, qr.can_scan now = false ↔
        (qr.is_active = false ∨ ∃ e, qr.expires_at = some e ∧ e < now)) := by
  refine ⟨?_, ?_, ?_, ?_⟩
  · intro h
    simp [scan_qr_code, h]
  · intro qr h hcan
    simp [scan_qr_code, h, hcan]
  · intro qr h hcan
    simp [scan_qr_code, h, hcan]
  · intro qr
    unfold QRCode.can_scan QRCode.is_expired
    cases he : qr.expires_at <;> cases ha : qr.is_active <;> simp [he, ha]

/-- C2 witness: on concrete data, an unknown short code yields 404 leaving the
state unchanged, an inactive QR code yields 403 leaving the state unchanged,
and an active one yields a redirect to its destination. -/
theorem scan_qr_code_status_cases_witness :
    scan_qr_code parseW 0 7 "zzz" reqW dbW = (.notFound, dbW)
    ∧ scan_qr_code parseW 0 7 "off001" reqW dbW = (.forbidden, dbW)
    ∧ (scan_qr_code parseW 0 7 "abc123" reqW dbW).1 = .redirect "https://example.com" :=
  ⟨(scan_qr_code_status_cases parseW 0 7 "zzz" reqW dbW).1 rfl,
    (scan_qr_code_status_cases parseW 0 7 "off001" reqW dbW).2.1 qrOff rfl rfl,
    (scan_qr_code_status_cases parseW 0 7 "abc123" reqW dbW).2.2.1 qrOn rfl rfl⟩

/-- C3: whenever the per-QR analytics endpoint returns a summary, the window
counts are monotonically non-decreasing as the window widens, because all
windows are computed against the same `now` over the same scan table. -/
theorem qr_analytics_window_monotone (now : Int) (u : User) (qr_id : Nat) (db : DB)
    (a : QRAnalytics) (h : get_qr_analytics now u qr_id db = .ok a) :
    a.scans_today ≤ a.scans_this_week
    ∧ a.scans_this_week ≤ a.scans_this_month
    ∧ a.scans_this_month ≤ a.total_scans := by
  unfold get_qr_analytics at h
  split at h
  · cases h
  · split at h
    · cases h
    · cases h
      refine ⟨?_, ?_, ?_⟩
      · exact countScansSince_mono db.scans qr_id _ _ (by unfold secondsPerDay; omega)
      · exact countScansSince_mono db.scans qr_id _ _ (by unfold secondsPerDay; omega)
      · exact countScansSince_le_scansFor db.scans qr_id _

/-- C3 witness: on concrete data with two scans (one at the evaluation
instant, one 100 seconds earlier), the returned counts 1 ≤ 2 ≤ 2 ≤ 2 are
monotone. -/
theorem qr_analytics_window_monotone_witness :
    (⟨3, 2, 1, 2, 2⟩ : QRAnalytics).scans_today ≤ (⟨3, 2, 1, 2, 2⟩ : QRAnalytics).scans_this_week
    ∧ (⟨3, 2, 1, 2, 2⟩ : QRAnalytics).scans_this_week ≤
        (⟨3, 2, 1, 2, 2⟩ : QRAnalytics).scans_this_month
    ∧ (⟨3, 2, 1, 2, 2⟩ : QRAnalytics).scans_this_month ≤
        (⟨3, 2, 1, 2, 2⟩ : QRAnalytics).total_scans :=
  qr_analytics_window_monotone 0 userProW 3 dbAW ⟨3, 2, 1, 2, 2⟩ rfl

/-- C4: per-QR analytics access control: when the caller does not own the QR
code (including when it does not exist) the result is 404; when the caller
owns it but is on the free plan the result is 403, regardless of the scan
history in `db`; when the caller owns it and holds a pro or business plan the
summary is returned. -/
theorem qr_analytics_access_control (now : Int) (u : User) (qr_id : Nat) (db : DB) :
    (db.qr_codes.find? (fun q => q.id == qr_id && q.user_id == some u.id) = none →
      get_qr_analytics now u qr_id db = .error ⟨404, "QR code not found"⟩)
    ∧ (∀ qr, db.qr_codes.find? (fun q => q.id == qr_id && q.user_id == some u.id) = some qr →
        u.subscription_plan = .free →
        get_qr_analytics now u qr_id db = .error ⟨403, "Analytics require PRO subscription"⟩)
    ∧ (∀ qr, db.qr_codes.find? (fun q => q.id == qr_id && q.user_id == some u.id) = some qr →
        (u.subscription_plan = .pro ∨ u.subscription_plan = .business) →
        ∃ a, get_qr_analytics now u qr_id db = .ok a) := by
  refine ⟨?_, ?_, ?_⟩
  · intro h
    simp [get_qr_analytics, h]
  · intro qr h hplan
    simp [get_qr_analytics, h, User.is_premium, hplan]
  · intro qr h hplan
    have hp : u.is_premium = true := by
      rcases hplan with h1 | h1 <;> simp [User.is_premium, h1]
    simp [get_qr_analytics, h, hp]

/-- C4 witness: on concrete data, a free-plan owner is rejected with 403 even
though the QR code exists and is owned, and an unowned id yields 404. -/
theorem qr_analytics_access_control_witness :
    get_qr_analytics 0 userFreeW 1 dbW = .error ⟨403, "Analytics require PRO subscription"⟩
    ∧ get_qr_analytics 0 userFreeW 99 dbW = .error ⟨404, "QR code not found"⟩ :=
  ⟨(qr_analytics_access_control 0 userFreeW 1 dbW).2.1 qrOn rfl rfl,
    (qr_analytics_access_control 0 userFreeW 99 dbW).1 rfl⟩

/-- C1: a scan request that resolves to an active, non-expired QR code
appends exactly one scan row referencing that QR code, increments exactly
that QR code's `total_scans` by 1 (both writes in the one modelled
transaction), and therefore preserves the invariant that every QR code's
counter equals the number of scan rows referencing it. -/
theorem scan_qr_code_counter_consistent (parse : String → UserAgent) (now : Int)
    (scanId : Nat) (sc : String) (req : RequestCtx) (db : DB) (qr : QRCode)
    (hfind : db.qr_codes.find? (fun q => q.short_code == sc) = some qr)
    (hcan : qr.can_scan now = true)
    (hinv : counterInvariant db) :
    (∃ scan : QRScan,
      (scan_qr_code parse now scanId sc req db).2.scans = db.scans ++ [scan]
      ∧ scan.qr_code_id = qr.id)
    ∧ scansFor (scan_qr_code parse now scanId sc req db).2.scans qr.id
        = scansFor db.scans qr.id + 1
    ∧ (∀ q' ∈ (scan_qr_code parse now scanId sc req db).2.qr_codes,
        q'.id = qr.id → q'.total_scans = qr.total_scans + 1)
    ∧ counterInvariant (scan_qr_code parse now scanId sc req db).2 := by
  have hmem : qr ∈ db.qr_codes := List.mem_of_find?_eq_some hfind
  have hres : (scan_qr_code parse now scanId sc req db).2 =
      { db with
        scans := db.scans ++ [scanRow parse now scanId req qr]
        qr_codes := db.qr_codes.map (fun q =>
          if q.id == qr.id then bumpScan now q else q) } := by
    simp [scan_qr_code, hfind, hcan]
  rw [hres]
  refine ⟨⟨scanRow parse now scanId req qr, rfl, rfl⟩, ?_, ?_, ?_⟩
  · rw [scansFor_append]
    simp [scanRow]
  · intro q' hq' hid
    rcases List.mem_map.1 hq' with ⟨q, hqmem, rfl⟩
    cases hb : (q.id == qr.id) with
    | true =>
      have hqe : q.id = qr.id := by simpa using hb
      simp only [hb, if_true, bumpScan]
      have h1 := hinv q hqmem
      have h2 := hinv qr hmem
      rw [h1, h2, hqe]
    | false =>
      simp only [hb, Bool.false_eq_true, if_false] at hid ⊢
      exact absurd hid (by simpa using hb)
  · intro q' hq'
    rcases List.mem_map.1 hq' with ⟨q, hqmem, rfl⟩
    cases hb : (q.id == qr.id) with
    | true =>
      have hqe : q.id = qr.id := by simpa using hb
      simp only [hb, if_true, bumpScan]
      rw [scansFor_append]
      simp only [scanRow]
      rw [hqe]
      simp [hinv q hqmem, hqe]
    | false =>
      have hne : ¬ q.id = qr.id := by simpa using hb
      have hg : (qr.id == q.id) = false := by
        simpa using fun h : qr.id = q.id => hne h.symm
      simp only [hb, Bool.false_eq_true, if_false]
      rw [scansFor_append]
      simp only [scanRow]
      simp [hg, hinv q hqmem]

/-- C1 witness: scanning the active sample QR code appends one scan row,
takes its per-code scan count from 0 to 1, and keeps every counter equal to
its scan-row count. -/
theorem scan_qr_code_counter_consistent_witness :
    scansFor (scan_qr_code parseW 0 7 "abc123" reqW dbW).2.scans qrOn.id
        = scansFor dbW.scans qrOn.id + 1
    ∧ counterInvariant (scan_qr_code parseW 0 7 "abc123" reqW dbW).2 :=
  ⟨(scan_qr_code_counter_consistent parseW 0 7 "abc123" reqW dbW qrOn rfl rfl
      (by unfold counterInvariant; decide)).2.1,
    (scan_qr_code_counter_consistent parseW 0 7 "abc123" reqW dbW qrOn rfl rfl
      (by unfold counterInvariant; decide)).2.2.2⟩

/-- C6: a creation request by a free-plan user who already owns 3 or more QR
codes is rejected with the 403 quota error, with the state (rows and artifact
files alike) returned unchanged — for every random short-code stream, retry
fuel, render outcome and request payload, since the quota check runs before
the short code is drawn and before the render service is invoked. -/
theorem create_qr_quota_rejects (gen : Nat → String) (fuel newId : Nat)
    (svg_ok : Bool) (qr_data : QRCodeCreate) (u : User) (db : DB)
    (hfree : u.subscription_plan = .free)
    (hcount : 3 ≤ (db.qr_codes.filter (fun q => q.user_id == some u.id)).length) :
    create_qr_code gen fuel newId svg_ok qr_data u db
      = some (.error ⟨403,
          "Free plan limited to 3 QR codes. Upgrade to PRO for unlimited."⟩, db) := by
  have hp : u.is_premium = false := by simp [User.is_premium, hfree]
  have hl : u.qr_code_limit = some 3 := by simp [User.qr_code_limit, hfree]
  unfold create_qr_code
  rw [hp, hl]
  simp [Option.any, hcount, ge_iff_le]
  rfl

/-- C6 witness: the free-plan sample user already owning 3 QR codes has a 4th
creation rejected with 403 and the state unchanged. -/
theorem create_qr_quota_rejects_witness :
    create_qr_code genW 5 99 true createReqW userFreeW dbQuota
      = some (.error ⟨403,
          "Free plan limited to 3 QR codes. Upgrade to PRO for unlimited."⟩, dbQuota) :=
  create_qr_quota_rejects genW 5 99 true createReqW userFreeW dbQuota rfl (by decide)

/-- C9: an update carrying a destination_url is rejected with 403 and the
state left unchanged when the QR code is static (`is_dynamic = false`); when
the QR code is dynamic the same request succeeds and the stored destination
URL is replaced by the requested one. -/
theorem update_qr_dynamic_gate (qr_id : Nat) (upd : QRCodeUpdate) (u : User)
    (db : DB) (qr : QRCode)
    (hfind : db.qr_codes.find? (fun q => q.id == qr_id && q.user_id == some u.id)
      = some qr) :
    (∀ url, upd.destination_url = some url → qr.is_dynamic = false →
      update_qr_code qr_id upd u db
        = (.error ⟨403, "Cannot change URL of static QR code. Upgrade to dynamic QR."⟩, db))
    ∧ (∀ url, upd.destination_url = some url → qr.is_dynamic = true →
        (update_qr_code qr_id upd u db).1 = .ok (applyUpdate upd qr)
        ∧ (applyUpdate upd qr).destination_url = url) := by
  constructor
  · intro url hurl hdyn
    simp [update_qr_code, hfind, hurl, hdyn]
  · intro url hurl hdyn
    constructor
    · simp [update_qr_code, hfind, hurl, hdyn]
    · simp [applyUpdate, hurl]

/-- C9 witness: on concrete data, a URL-bearing update of the static sample
QR code is rejected with 403 and the state is unchanged, while the same
update of the dynamic sample QR code succeeds with the URL replaced. -/
theorem update_qr_dynamic_gate_witness :
    update_qr_code 4 updW userFreeW dbW
      = (.error ⟨403, "Cannot change URL of static QR code. Upgrade to dynamic QR."⟩, dbW)
    ∧ (update_qr_code 1 updW userFreeW dbW).1 = .ok (applyUpdate updW qrOn)
    ∧ (applyUpdate updW qrOn).destination_url = "https://new.example.com" :=
  ⟨(update_qr_dynamic_gate 4 updW userFreeW dbW qrStatic rfl).1
      "https://new.example.com" rfl rfl,
    (update_qr_dynamic_gate 1 updW userFreeW dbW qrOn rfl).2
      "https://new.example.com" rfl rfl⟩

theorem genUniqueShortCode_fresh (gen : Nat → String) (db : DB) (fuel : Nat) :
    ∀ i c, genUniqueShortCode gen db i fuel = some c → shortCodeTaken db c = false := by
  induction fuel with
  | zero =>
    intro i c h
    exact absurd h (by simp [genUniqueShortCode])
  | succ fuel ih =>
    intro i c h
    unfold genUniqueShortCode at h
    cases ht : shortCodeTaken db (gen i) with
    | true =>
      rw [ht] at h
      simp only [if_true] at h
      exact ih (i + 1) c h
    | false =>
      rw [ht] at h
      simp only [Bool.false_eq_true, if_false, Option.some.injEq] at h
      rw [← h]
      exact ht

theorem genUniqueShortCode_finds (gen : Nat → String) (db : DB) (fuel : Nat) :
    ∀ i, (∃ j, i ≤ j ∧ j < i + fuel ∧ shortCodeTaken db (gen j) = false) →
      ∃ c, genUniqueShortCode gen db i fuel = some c := by
  induction fuel with
  | zero =>
    intro i ⟨j, hij, hj, _⟩
    omega
  | succ fuel ih =>
    intro i ⟨j, hij, hj, hfree⟩
    unfold genUniqueShortCode
    cases ht : shortCodeTaken db (gen i) with
    | false =>
      exact ⟨gen i, by simp [ht]⟩
    | true =>
      have hji : j ≠ i := by
        rintro rfl
        rw [hfree] at ht
        cases ht
      have hnext := ih (i + 1) ⟨j, by omega, by omega, hfree⟩
      simpa [ht] using hnext

theorem shortCodeTaken_eq_false_iff (db : DB) (c : String) :
    shortCodeTaken db c = false ↔ c ∉ db.qr_codes.map (fun q => q.short_code) := by
  unfold shortCodeTaken
  constructor
  · intro h hc
    rcases List.mem_map.1 hc with ⟨q, hq, hcq⟩
    have hnone : db.qr_codes.find? (fun q => q.short_code == c) = none :=
      Option.not_isSome_iff_eq_none.1 (by simp [h])
    have := List.find?_eq_none.1 hnone q hq
    exact this (by simp [hcq])
  · intro h
    cases hf : db.qr_codes.find? (fun q => q.short_code == c) with
    | none => rfl
    | some q =>
      have hq := List.mem_of_find?_eq_some hf
      have hcq : q.short_code = c := by simpa using List.find?_some hf
      exact absurd (List.mem_map.2 ⟨q, hq, hcq⟩) h

/-- C8: short-code uniqueness at creation: a successfully created QR code's
short code differs from the short code of every existing row (so a table with
pairwise-distinct short codes stays that way, the new row being appended),
and a generation collision is resolved by drawing again internally: whenever
the quota guard passes and some draw within the retry fuel is fresh, the
caller receives a created QR code, never a conflict error. -/
theorem create_qr_short_code_unique (gen : Nat → String) (fuel newId : Nat)
    (svg_ok : Bool) (qr_data : QRCodeCreate) (u : User) (db : DB) :
    (∀ qr db', create_qr_code gen fuel newId svg_ok qr_data u db = some (.ok qr, db') →
      qr.short_code ∉ db.qr_codes.map (fun q => q.short_code)
      ∧ db'.qr_codes = db.qr_codes ++ [qr]
      ∧ ((db.qr_codes.map (fun q => q.short_code)).Nodup →
          (db'.qr_codes.map (fun q => q.short_code)).Nodup))
    ∧ ((!u.is_premium && (u.qr_code_limit).any (fun l =>
          (db.qr_codes.filter (fun q => q.user_id == some u.id)).length ≥ l)) = false →
        (∃ j, j < fuel ∧ shortCodeTaken db (gen j) = false) →
        ∃ qr db', create_qr_code gen fuel newId svg_ok qr_data u db
          = some (.ok qr, db')) := by
  constructor
  · intro qr db' h
    simp only [create_qr_code] at h
    split at h
    · simp at h
    · cases hg : genUniqueShortCode gen db 0 fuel with
      | none => rw [hg] at h; simp at h
      | some c =>
        rw [hg] at h
        simp only [Option.some.injEq, Prod.mk.injEq, Except.ok.injEq] at h
        obtain ⟨hqr, hdb⟩ := h
        have hfresh : shortCodeTaken db c = false :=
          genUniqueShortCode_fresh gen db fuel 0 c hg
        have hfresh' : c ∉ db.qr_codes.map (fun q => q.short_code) :=
          (shortCodeTaken_eq_false_iff db c).1 hfresh
        subst hqr
        subst hdb
        refine ⟨hfresh', rfl, ?_⟩
        intro hnd
        rw [List.map_append, List.nodup_append]
        refine ⟨hnd, by simp, ?_⟩
        intro a ha hb
        simp only [List.map_cons, List.map_nil, List.mem_singleton] at hb
        subst hb
        exact hfresh' ha
  · intro hquota hfresh
    obtain ⟨j, hj, hjf⟩ := hfresh
    obtain ⟨c, hc⟩ := genUniqueShortCode_finds gen db fuel 0 ⟨j, Nat.zero_le j, by omega, hjf⟩
    simp only [create_qr_code, hquota, Bool.false_eq_true, if_false, hc]
    exact ⟨_, _, rfl⟩

/-- C8 witness: with a draw stream whose first candidate collides with the
existing short code "abc123" and whose second is fresh, creation by a premium
user succeeds (the collision is retried internally, not surfaced). -/
theorem create_qr_short_code_unique_witness :
    ∃ qr db', create_qr_code genW 2 50 true createReqW userProW dbW
      = some (.ok qr, db') :=
  (create_qr_short_code_unique genW 2 50 true createReqW userProW dbW).2
    (by decide) ⟨1, by decide, by decide⟩

theorem ownedIds_contains (db : DB) (uid : Nat) (n : Nat) :
    ((db.qr_codes.filter (fun q => q.user_id == some uid)).map (fun q => q.id)).contains n
      = decide (∃ q ∈ db.qr_codes, q.user_id = some uid ∧ q.id = n) := by
  rw [Bool.eq_iff_iff]
  simp only [List.contains, List.elem_iff, List.mem_map, List.mem_filter,
    decide_eq_true_eq, beq_iff_eq]
  constructor
  · rintro ⟨q, ⟨hqm, hqo⟩, hqn⟩
    exact ⟨q, hqm, hqo, hqn⟩
  · rintro ⟨q, hqm, hqo, hqn⟩
    exact ⟨q, ⟨hqm, hqo⟩, hqn⟩

/-- C10: the dashboard summary endpoint applies no subscription-plan gate:
for every authenticated user — free plan included — it returns the aggregate
(owned QR-code count, total scans over owned codes, trailing-30-day scans,
plan string) and never returns an error, in contrast to the per-QR analytics
endpoint. -/
theorem dashboard_summary_no_plan_gate (now : Int) (u : User) (db : DB) :
    (∃ s : DashboardSummary,
      get_dashboard_summary now u db = .ok s
      ∧ s.total_qr_codes = (db.qr_codes.filter (fun q => q.user_id == some u.id)).length
      ∧ s.total_scans = (db.scans.filter (fun sc =>
          decide (∃ q ∈ db.qr_codes, q.user_id = some u.id ∧ q.id = sc.qr_code_id))).length
      ∧ s.scans_this_month = (db.scans.filter (fun sc =>
          decide (∃ q ∈ db.qr_codes, q.user_id = some u.id ∧ q.id = sc.qr_code_id)
            && decide (now - 30 * secondsPerDay ≤ sc.scanned_at))).length
      ∧ s.subscription_plan = u.subscription_plan.value)
    ∧ (∀ e : HTTPException, get_dashboard_summary now u db ≠ .error e) := by
  constructor
  · simp only [get_dashboard_summary]
    refine ⟨_, rfl, rfl, ?_, ?_, rfl⟩
    · cases hie : ((db.qr_codes.filter (fun q => q.user_id == some u.id)).map
          (fun q => q.id)).isEmpty with
      | true =>
        simp only [hie, if_true]
        have hnil : db.qr_codes.filter (fun q => q.user_id == some u.id) = [] :=
          List.map_eq_nil_iff.1 (List.isEmpty_iff.1 hie)
        have hnone := List.filter_eq_nil_iff.1 hnil
        have hrhs : db.scans.filter (fun sc =>
            decide (∃ q ∈ db.qr_codes, q.user_id = some u.id ∧ q.id = sc.qr_code_id)) = [] := by
          rw [List.filter_eq_nil_iff]
          intro sc _
          simp only [decide_eq_true_eq]
          rintro ⟨q, hq, hqo, _⟩
          exact hnone q hq (by simp [hqo])
        rw [hrhs]
        rfl
      | false =>
        simp only [hie, Bool.false_eq_true, if_false]
        apply congrArg List.length
        apply List.filter_congr
        intro sc _
        exact ownedIds_contains db u.id sc.qr_code_id
    · cases hie : ((db.qr_codes.filter (fun q => q.user_id == some u.id)).map
          (fun q => q.id)).isEmpty with
      | true =>
        simp only [hie, if_true]
        have hnil : db.qr_codes.filter (fun q => q.user_id == some u.id) = [] :=
          List.map_eq_nil_iff.1 (List.isEmpty_iff.1 hie)
        have hnone := List.filter_eq_nil_iff.1 hnil
        have hrhs : db.scans.filter (fun sc =>
            decide (∃ q ∈ db.qr_codes, q.user_id = some u.id ∧ q.id = sc.qr_code_id)
              && decide (now - 30 * secondsPerDay ≤ sc.scanned_at)) = [] := by
          rw [List.filter_eq_nil_iff]
          intro sc _
          simp only [Bool.and_eq_true, decide_eq_true_eq]
          rintro ⟨⟨q, hq, hqo, _⟩, -⟩
          exact hnone q hq (by simp [hqo])
        rw [hrhs]
        rfl
      | false =>
        simp only [hie, Bool.false_eq_true, if_false]
        apply congrArg List.length
        apply List.filter_congr
        intro sc _
        rw [ownedIds_contains db u.id sc.qr_code_id]
  · intro e h
    simp [get_dashboard_summary] at h

/-- C10 witness: the free-plan sample user gets a dashboard summary, not the
403 the per-QR analytics endpoint gives the same user. -/
theorem dashboard_summary_no_plan_gate_witness :
    (∃ s : DashboardSummary, get_dashboard_summary 0 userFreeW dbW = .ok s)
    ∧ get_dashboard_summary 0 userFreeW dbW
        ≠ .error ⟨403, "Analytics require PRO subscription"⟩ := by
  obtain ⟨s, hs, -, -, -, -⟩ := (dashboard_summary_no_plan_gate 0 userFreeW dbW).1
  exact ⟨⟨s, hs⟩, (dashboard_summary_no_plan_gate 0 userFreeW dbW).2 _⟩

end QrSaas
